import Mathlib

/-
  Verification of the rt-5gms-application-function core against its
  natural-language specification.

  The definitions below are a shallow embedding of the C sources:
    * src/5gmsaf/application-server-context.c  (M3 client engine)
    * src/5gmsaf/server.c                      (HTTP response construction)
    * lib/sbi/server.c / mhd-server.c / nghttp2-server.c (stream/server refactor)
  C linked lists (ogs_list_t) become Lean lists with ogs_list_add appending at
  the tail and ogs_list_first taking the head; NULL-able pointers become
  Option; external helpers that live outside the provided sources are passed
  in as explicit environment functions.
-/

namespace RtMsaf

/-! ## Data model: application-server-context.c -/

/-- Embeds `msaf_application_server_node_t`: one configured Application
Server record (canonical hostname, URL path prefix format, M3 port). -/
structure msaf_application_server_node where
  canonicalHostname : String
  urlPathPrefixFormat : String
  m3Port : Nat
deriving DecidableEq

/-- Embeds `msaf_application_server_state_node_t`: the per-AS reconciliation
state.  `current_certificates` / `current_content_hosting_configurations`
are `none` before the first successful GET (NULL pointers in C); the five
queues hold the `state` strings of `resource_id_node_t` entries
(`purge_content_hosting_cache` additionally carries the optional
`purge_regex`).  `ogs_list_add` appends at the tail, so the C lists are FIFO
queues whose head is `ogs_list_first`. -/
structure msaf_application_server_state_node where
  application_server : msaf_application_server_node
  current_certificates : Option (List String) := none
  current_content_hosting_configurations : Option (List String) := none
  upload_certificates : List String := []
  upload_content_hosting_configurations : List String := []
  delete_certificates : List String := []
  delete_content_hosting_configurations : List String := []
  purge_content_hosting_cache : List (String × Option String) := []
  assigned_provisioning_sessions : List String := []
deriving DecidableEq

/-- Embeds the slice of `ogs_sbi_request_t` that
`m3_client_as_state_requests` fills in: method, URI, optional Content-Type
header and optional message content. -/
structure ogs_sbi_request where
  method : String
  uri : String
  content_type : Option String
  content : Option String
deriving DecidableEq

/-- Embeds `m3_client_as_state_requests`: builds the request
`http://<canonicalHostname>:<m3Port>/3gpp-m3/v1/<component>`, attaches the
content when `data` is non-NULL and the Content-Type header when `type` is
non-NULL, and sends it (exactly one request per call). -/
def m3_client_as_state_requests (as_state : msaf_application_server_state_node)
    (type : Option String) (data : Option String) (method : String)
    (component : String) : ogs_sbi_request :=
  { method := method
    uri := "http://" ++ as_state.application_server.canonicalHostname ++ ":"
        ++ toString as_state.application_server.m3Port ++ "/3gpp-m3/v1/" ++ component
    content_type := type
    content := data }

/-- External helpers used by `next_action_for_application_server` whose
bodies are outside the provided sources.  `read_file` models `read_file()`
from utilities.c (`none` when the file cannot be read, as NULL in C);
`msaf_get_certificate_filename` is modelled from the spec: the PEM filename
is derived deterministically from the provisioning session id and
certificate id; `content_hosting_configuration_with_af_unique_cert_id_json`
models the composition of
`msaf_content_hosting_configuration_with_af_unique_cert_id`,
`OpenAPI_content_hosting_configuration_convertToJSON` and `cJSON_Print`
applied to the session of the given id (`none` when printing fails). -/
structure M3ClientEnv where
  read_file : String → Option String
  msaf_get_certificate_filename : String → String → String
  content_hosting_configuration_with_af_unique_cert_id_json : String → Option String

/-- Embeds the `strtok_r(s, ":", ...)` split used on an AF-unique
certificate id: leading colons are skipped, the first component runs to the
next colon, and the save pointer holds everything after that colon. -/
def strtok_colon (s : String) : String × String :=
  let cs := s.toList.dropWhile (fun c => c = ':')
  (String.mk (cs.takeWhile (fun c => c ≠ ':')),
   String.mk ((cs.dropWhile (fun c => c ≠ ':')).drop 1))

/-- Embeds `next_action_for_application_server`: one reconciliation step.
The priority cascade mirrors the if/else chain of the C function; each taken
branch performs exactly one call to `m3_client_as_state_requests`, always on
the head (`ogs_list_first`) of the chosen queue. -/
def next_action_for_application_server (env : M3ClientEnv)
    (as_state : msaf_application_server_state_node) : Option ogs_sbi_request :=
  match as_state.current_certificates with
  | none => some (m3_client_as_state_requests as_state none none "GET" "certificates")
  | some current_certs =>
    match as_state.current_content_hosting_configurations with
    | none => some (m3_client_as_state_requests as_state none none "GET"
        "content-hosting-configurations")
    | some current_chcs =>
      match as_state.upload_certificates with
      | upload_cert :: _ =>
        let found := current_certs.contains upload_cert
        let ps := (strtok_colon upload_cert).1
        let cert_id := (strtok_colon upload_cert).2
        let data := env.read_file (env.msaf_get_certificate_filename ps cert_id)
        let component := "certificates/" ++ ps ++ ":" ++ cert_id
        some (m3_client_as_state_requests as_state (some "application/x-pem-file") data
          (if found then "PUT" else "POST") component)
      | [] =>
        match as_state.upload_content_hosting_configurations with
        | upload_chc :: _ =>
          let found := current_chcs.contains upload_chc
          let data := env.content_hosting_configuration_with_af_unique_cert_id_json upload_chc
          let component := "content-hosting-configurations/" ++ upload_chc
          some (m3_client_as_state_requests as_state (some "application/json") data
            (if found then "PUT" else "POST") component)
        | [] =>
          match as_state.delete_content_hosting_configurations with
          | d :: _ => some (m3_client_as_state_requests as_state none none "DELETE"
              ("content-hosting-configurations/" ++ d))
          | [] =>
            match as_state.delete_certificates with
            | d :: _ => some (m3_client_as_state_requests as_state none none "DELETE"
                ("certificates/" ++ d))
            | [] =>
              match as_state.purge_content_hosting_cache with
              | p :: _ => some (m3_client_as_state_requests as_state
                  (some "application/x-www-form-urlencoded") p.2 "POST"
                  ("content-hosting-configurations/" ++ p.1 ++ "/purge"))
              | [] => none

/-- C1: one reconciliation step chooses its action by strict priority:
unknown certificate list first, then unknown CHC list, then certificate
uploads, CHC uploads, CHC deletes, certificate deletes, cache purges; each
taken step issues exactly one HTTP request built from the head of the
selected queue (FIFO). -/
theorem claim_c1_next_action_priority (env : M3ClientEnv)
    (as_state : msaf_application_server_state_node) :
    (as_state.current_certificates = none →
      next_action_for_application_server env as_state =
        some (m3_client_as_state_requests as_state none none "GET" "certificates"))
  ∧ (∀ cc, as_state.current_certificates = some cc →
      as_state.current_content_hosting_configurations = none →
      next_action_for_application_server env as_state =
        some (m3_client_as_state_requests as_state none none "GET"
          "content-hosting-configurations"))
  ∧ (∀ cc hc h t, as_state.current_certificates = some cc →
      as_state.current_content_hosting_configurations = some hc →
      as_state.upload_certificates = h :: t →
      next_action_for_application_server env as_state =
        some (m3_client_as_state_requests as_state (some "application/x-pem-file")
          (env.read_file (env.msaf_get_certificate_filename
            (strtok_colon h).1 (strtok_colon h).2))
          (if cc.contains h then "PUT" else "POST")
          ("certificates/" ++ (strtok_colon h).1 ++ ":" ++ (strtok_colon h).2)))
  ∧ (∀ cc hc h t, as_state.current_certificates = some cc →
      as_state.current_content_hosting_configurations = some hc →
      as_state.upload_certificates = [] →
      as_state.upload_content_hosting_configurations = h :: t →
      next_action_for_application_server env as_state =
        some (m3_client_as_state_requests as_state (some "application/json")
          (env.content_hosting_configuration_with_af_unique_cert_id_json h)
          (if hc.contains h then "PUT" else "POST")
          ("content-hosting-configurations/" ++ h)))
  ∧ (∀ cc hc h t, as_state.current_certificates = some cc →
      as_state.current_content_hosting_configurations = some hc →
      as_state.upload_certificates = [] →
      as_state.upload_content_hosting_configurations = [] →
      as_state.delete_content_hosting_configurations = h :: t →
      next_action_for_application_server env as_state =
        some (m3_client_as_state_requests as_state none none "DELETE"
          ("content-hosting-configurations/" ++ h)))
  ∧ (∀ cc hc h t, as_state.current_certificates = some cc →
      as_state.current_content_hosting_configurations = some hc →
      as_state.upload_certificates = [] →
      as_state.upload_content_hosting_configurations = [] →
      as_state.delete_content_hosting_configurations = [] →
      as_state.delete_certificates = h :: t →
      next_action_for_application_server env as_state =
        some (m3_client_as_state_requests as_state none none "DELETE"
          ("certificates/" ++ h)))
  ∧ (∀ cc hc p t, as_state.current_certificates = some cc →
      as_state.current_content_hosting_configurations = some hc →
      as_state.upload_certificates = [] →
      as_state.upload_content_hosting_configurations = [] →
      as_state.delete_content_hosting_configurations = [] →
      as_state.delete_certificates = [] →
      as_state.purge_content_hosting_cache = p :: t →
      next_action_for_application_server env as_state =
        some (m3_client_as_state_requests as_state
          (some "application/x-www-form-urlencoded") p.2 "POST"
          ("content-hosting-configurations/" ++ p.1 ++ "/purge"))) := by
  refine ⟨?_, ?_, ?_, ?_, ?_, ?_, ?_⟩
  · intro h1
    simp [next_action_for_application_server, h1]
  · intro cc h1 h2
    simp [next_action_for_application_server, h1, h2]
  · intro cc hc h t h1 h2 h3
    simp [next_action_for_application_server, h1, h2, h3]
  · intro cc hc h t h1 h2 h3 h4
    simp [next_action_for_application_server, h1, h2, h3, h4]
  · intro cc hc h t h1 h2 h3 h4 h5
    simp [next_action_for_application_server, h1, h2, h3, h4, h5]
  · intro cc hc h t h1 h2 h3 h4 h5 h6
    simp [next_action_for_application_server, h1, h2, h3, h4, h5, h6]
  · intro cc hc p t h1 h2 h3 h4 h5 h6 h7
    simp [next_action_for_application_server, h1, h2, h3, h4, h5, h6, h7]

/-- Concrete environment used by witnesses. -/
def env_w : M3ClientEnv :=
  { read_file := fun _ => some "PEMDATA"
    msaf_get_certificate_filename := fun a b => "certs/" ++ a ++ "/" ++ b
    content_hosting_configuration_with_af_unique_cert_id_json := fun _ => some "chcjson" }

/-- Concrete AS-state node used by the C1 witness: both current lists known,
one pending certificate upload. -/
def as_w1 : msaf_application_server_state_node :=
  { application_server := { canonicalHostname := "as.example"
                            urlPathPrefixFormat := "/m4d/"
                            m3Port := 7777 }
    current_certificates := some ["ps1:c1"]
    current_content_hosting_configurations := some []
    upload_certificates := ["ps1:c1"] }

/-- Witness for C1: with both current lists known and a pending certificate
upload at the head, the step issues a PUT of that certificate. -/
theorem claim_c1_witness :
    next_action_for_application_server env_w as_w1 =
      some (m3_client_as_state_requests as_w1 (some "application/x-pem-file")
        (env_w.read_file (env_w.msaf_get_certificate_filename
          (strtok_colon "ps1:c1").1 (strtok_colon "ps1:c1").2))
        (if (["ps1:c1"] : List String).contains "ps1:c1" then "PUT" else "POST")
        ("certificates/" ++ (strtok_colon "ps1:c1").1 ++ ":" ++ (strtok_colon "ps1:c1").2)) :=
  (claim_c1_next_action_priority env_w as_w1).2.2.1 ["ps1:c1"] [] "ps1:c1" [] rfl rfl rfl

/-! ## Provisioning-session triggers: set_on_post and update -/

/-- Embeds the slice of `msaf_provisioning_session_t` that the AS-state
triggers use.  `certificates` is the list returned by
`msaf_retrieve_certificates_from_map` for this session; that function's body
is outside the provided sources and is modelled from the spec: it yields the
session's certificates (their AF-unique ids). -/
structure msaf_provisioning_session where
  provisioningSessionId : String
  certificates : List String
deriving DecidableEq

/-- The queue updates that `msaf_application_server_state_set_on_post`
performs on one matching AS-state node: append the session's certificates to
`upload_certificates`, append one entry holding the session id to
`upload_content_hosting_configurations`, and record the session as assigned
(`ogs_list_add` appends at the tail). -/
def set_on_post_enqueue (ps : msaf_provisioning_session)
    (as_state : msaf_application_server_state_node) :
    msaf_application_server_state_node :=
  { as_state with
    upload_certificates := as_state.upload_certificates ++ ps.certificates
    upload_content_hosting_configurations :=
      as_state.upload_content_hosting_configurations ++ [ps.provisioningSessionId]
    assigned_provisioning_sessions :=
      as_state.assigned_provisioning_sessions ++ [ps.provisioningSessionId] }

/-- Embeds one iteration of the loop in
`msaf_application_server_state_set_on_post`: a node whose AS matches the
first configured Application Server gets the enqueues and is then driven by
`next_action_for_application_server`; other nodes are untouched.  The second
component is `some a` when the node was driven (with `a` the action taken)
and `none` when it was skipped. -/
def msaf_application_server_state_set_on_post_node (env : M3ClientEnv)
    (first_as_hostname : String) (ps : msaf_provisioning_session)
    (as_state : msaf_application_server_state_node) :
    msaf_application_server_state_node × Option (Option ogs_sbi_request) :=
  if as_state.application_server.canonicalHostname = first_as_hostname then
    let as1 := set_on_post_enqueue ps as_state
    (as1, some (next_action_for_application_server env as1))
  else (as_state, none)

/-- Embeds `msaf_application_server_state_set_on_post`: iterate over all
AS-state nodes, applying the per-node step.  `first_as_hostname` is the
canonical hostname of `ogs_list_first(&config.applicationServers_list)`. -/
def msaf_application_server_state_set_on_post (env : M3ClientEnv)
    (first_as_hostname : String) (ps : msaf_provisioning_session)
    (states : List msaf_application_server_state_node) :
    List (msaf_application_server_state_node × Option (Option ogs_sbi_request)) :=
  states.map (msaf_application_server_state_set_on_post_node env first_as_hostname ps)

/-- The queue update that `msaf_application_server_state_update` performs on
one assigned AS-state node: append one entry holding the session id to
`upload_content_hosting_configurations`. -/
def update_enqueue (ps : msaf_provisioning_session)
    (as_state : msaf_application_server_state_node) :
    msaf_application_server_state_node :=
  { as_state with
    upload_content_hosting_configurations :=
      as_state.upload_content_hosting_configurations ++ [ps.provisioningSessionId] }

/-- Embeds `msaf_application_server_state_update`: for every AS-state node of
the session's `msaf_application_server_state_nodes` list, enqueue one CHC
upload entry and drive the next reconciliation step. -/
def msaf_application_server_state_update (env : M3ClientEnv)
    (ps : msaf_provisioning_session)
    (assigned_states : List msaf_application_server_state_node) :
    List (msaf_application_server_state_node × Option ogs_sbi_request) :=
  assigned_states.map (fun as_state =>
    let as1 := update_enqueue ps as_state
    (as1, next_action_for_application_server env as1))

/-- C3: creating a provisioning session enqueues all its certificates and one
CHC-upload entry on every AS-state node assigned to it (the nodes matching
the first configured AS, which become exactly the assigned ones), and
replacing its CHC enqueues one CHC-upload entry on every assigned node; in
both cases a reconciliation step is driven on each such node. -/
theorem claim_c3_enqueue_on_create_and_update (env : M3ClientEnv)
    (first_as_hostname : String) (ps : msaf_provisioning_session)
    (states assigned_states : List msaf_application_server_state_node) :
    (∀ (i : Nat) as0, states[i]? = some as0 →
      ∃ as1 drv,
        (msaf_application_server_state_set_on_post env first_as_hostname ps
          states)[i]? = some (as1, drv)
        ∧ (as0.application_server.canonicalHostname = first_as_hostname →
            as1.upload_certificates = as0.upload_certificates ++ ps.certificates
            ∧ as1.upload_content_hosting_configurations =
                as0.upload_content_hosting_configurations ++ [ps.provisioningSessionId]
            ∧ as1.assigned_provisioning_sessions =
                as0.assigned_provisioning_sessions ++ [ps.provisioningSessionId]
            ∧ drv = some (next_action_for_application_server env as1))
        ∧ (as0.application_server.canonicalHostname ≠ first_as_hostname →
            as1 = as0 ∧ drv = none))
  ∧ (∀ (i : Nat) as0, assigned_states[i]? = some as0 →
      (msaf_application_server_state_update env ps assigned_states)[i]? =
        some (update_enqueue ps as0,
          next_action_for_application_server env (update_enqueue ps as0))
      ∧ (update_enqueue ps as0).upload_content_hosting_configurations =
          as0.upload_content_hosting_configurations ++ [ps.provisioningSessionId]) := by
  constructor
  · intro i as0 hi
    by_cases hmatch : as0.application_server.canonicalHostname = first_as_hostname
    · refine ⟨set_on_post_enqueue ps as0,
        some (next_action_for_application_server env (set_on_post_enqueue ps as0)),
        ?_, ?_, ?_⟩
      · simp [msaf_application_server_state_set_on_post, List.getElem?_map, hi,
          msaf_application_server_state_set_on_post_node, hmatch]
      · intro _
        exact ⟨rfl, rfl, rfl, rfl⟩
      · intro hne
        exact absurd hmatch hne
    · refine ⟨as0, none, ?_, ?_, ?_⟩
      · simp [msaf_application_server_state_set_on_post, List.getElem?_map, hi,
          msaf_application_server_state_set_on_post_node, hmatch]
      · intro hx
        exact absurd hx hmatch
      · intro _
        exact ⟨rfl, rfl⟩
  · intro i as0 hi
    constructor
    · simp [msaf_application_server_state_update, List.getElem?_map, hi]
    · rfl

/-- Concrete session used by witnesses. -/
def ps_w : msaf_provisioning_session :=
  { provisioningSessionId := "ps1", certificates := ["ps1:c1", "ps1:c2"] }

/-- Witness for C3: on a single matching node with empty queues, creation
enqueues the two certificates and one CHC entry and drives a step. -/
theorem claim_c3_witness :
    ∃ as1 drv,
      (msaf_application_server_state_set_on_post env_w "as.example" ps_w
        [{ application_server := { canonicalHostname := "as.example"
                                   urlPathPrefixFormat := "/m4d/"
                                   m3Port := 7777 } }])[0]? = some (as1, drv)
      ∧ (as1.upload_certificates = [] ++ ps_w.certificates
          ∧ as1.upload_content_hosting_configurations = [] ++ [ps_w.provisioningSessionId]
          ∧ as1.assigned_provisioning_sessions = [] ++ [ps_w.provisioningSessionId]
          ∧ drv = some (next_action_for_application_server env_w as1)) := by
  obtain ⟨as1, drv, h1, h2, _⟩ :=
    (claim_c3_enqueue_on_create_and_update env_w "as.example" ps_w
      [{ application_server := { canonicalHostname := "as.example"
                                 urlPathPrefixFormat := "/m4d/"
                                 m3Port := 7777 } }] []).1 0
      { application_server := { canonicalHostname := "as.example"
                                urlPathPrefixFormat := "/m4d/"
                                m3Port := 7777 } } rfl
  exact ⟨as1, drv, h1, h2 rfl⟩

/-! ## Reconciliation engine: in-flight accounting and reply handling -/

/-- One AS-state node together with the bookkeeping the engine claims are
about: `inflight` counts M3 requests sent through
`ogs_sbi_client_send_request` whose completion callback has not yet run;
`backoff_delay` is the current exponential-backoff delay in seconds (0 after
a success); `scheduled_retry` is `some d` when a retry timer of `d` seconds
is pending. -/
structure m3_engine_state where
  as_state : msaf_application_server_state_node
  inflight : Nat := 0
  backoff_delay : Nat := 0
  scheduled_retry : Option Nat := none
deriving DecidableEq

/-- Drives `next_action_for_application_server` once: when the step issues a
request (any non-empty branch of the priority cascade), one more M3 request
is in flight. -/
def issue_next_action (env : M3ClientEnv) (e : m3_engine_state) : m3_engine_state :=
  match next_action_for_application_server env e.as_state with
  | some _ => { e with inflight := e.inflight + 1 }
  | none => e

/-- The effect of `msaf_application_server_state_set_on_post` on one engine
node: when the node matches the first configured AS, enqueue and drive a
reconciliation step (the C function calls
`next_action_for_application_server` unconditionally at that point). -/
def engine_set_on_post (env : M3ClientEnv) (first_as_hostname : String)
    (ps : msaf_provisioning_session) (e : m3_engine_state) : m3_engine_state :=
  if e.as_state.application_server.canonicalHostname = first_as_hostname then
    issue_next_action env { e with as_state := set_on_post_enqueue ps e.as_state }
  else e

/-- The effect of `msaf_application_server_state_update` on one assigned
engine node: enqueue one CHC upload entry and drive a reconciliation step. -/
def engine_update (env : M3ClientEnv) (ps : msaf_provisioning_session)
    (e : m3_engine_state) : m3_engine_state :=
  issue_next_action env { e with as_state := update_enqueue ps e.as_state }

/-- The disposition of an M3 reply: a success carries the decoded resource
list of a GET (`none` for non-GET steps), `client_error` is a 4xx response,
`server_error` a 5xx response. -/
inductive m3_response_kind where
  | success (payload : Option (List String))
  | client_error
  | server_error
deriving DecidableEq

/-- `OGS_OK` as used by `client_notify_cb`. -/
def OGS_OK : Int := 0

/-- Embeds `client_notify_cb` from application-server-context.c: when the
transport-level `status` is not `OGS_OK` the callback logs and returns
`OGS_ERROR` without queueing anything, so the response event never reaches
the state machine (`none`); otherwise the response is wrapped in an
`OGS_EVENT_SBI_CLIENT` event and pushed onto the application queue
(`some`). -/
def client_notify_cb (status : Int) (response : Option m3_response_kind) :
    Option m3_response_kind :=
  if status = OGS_OK then response else none

/-- Modelled from the spec: on success the M3 response event handler pops
the driving queue entry (the one the priority cascade selected) and updates
the cached `current_*` list when meaningful — a GET stores the returned
list, a successful upload adds the uploaded id, a successful delete removes
it.  The handler itself is outside the provided sources. -/
def pop_driving_entry (as_state : msaf_application_server_state_node)
    (payload : Option (List String)) : msaf_application_server_state_node :=
  match as_state.current_certificates with
  | none => { as_state with current_certificates := some (payload.getD []) }
  | some cc =>
    match as_state.current_content_hosting_configurations with
    | none => { as_state with
        current_content_hosting_configurations := some (payload.getD []) }
    | some hc =>
      match as_state.upload_certificates with
      | c :: t => { as_state with
          upload_certificates := t
          current_certificates := some (if cc.contains c then cc else cc ++ [c]) }
      | [] =>
        match as_state.upload_content_hosting_configurations with
        | c :: t => { as_state with
            upload_content_hosting_configurations := t
            current_content_hosting_configurations :=
              some (if hc.contains c then hc else hc ++ [c]) }
        | [] =>
          match as_state.delete_content_hosting_configurations with
          | c :: t => { as_state with
              delete_content_hosting_configurations := t
              current_content_hosting_configurations :=
                some (hc.filter (fun x => x ≠ c)) }
          | [] =>
            match as_state.delete_certificates with
            | c :: t => { as_state with
                delete_certificates := t
                current_certificates := some (cc.filter (fun x => x ≠ c)) }
            | [] =>
              match as_state.purge_content_hosting_cache with
              | _ :: t => { as_state with purge_content_hosting_cache := t }
              | [] => as_state

/-- Modelled from the spec: on a 4xx response the driving queue entry is
logged and dropped without retry and without touching the cached lists (a
4xx on an initial GET has no queue entry to drop). -/
def drop_driving_entry (as_state : msaf_application_server_state_node) :
    msaf_application_server_state_node :=
  match as_state.current_certificates with
  | none => as_state
  | some _ =>
    match as_state.current_content_hosting_configurations with
    | none => as_state
    | some _ =>
      match as_state.upload_certificates with
      | _ :: t => { as_state with upload_certificates := t }
      | [] =>
        match as_state.upload_content_hosting_configurations with
        | _ :: t => { as_state with upload_content_hosting_configurations := t }
        | [] =>
          match as_state.delete_content_hosting_configurations with
          | _ :: t => { as_state with delete_content_hosting_configurations := t }
          | [] =>
            match as_state.delete_certificates with
            | _ :: t => { as_state with delete_certificates := t }
            | [] =>
              match as_state.purge_content_hosting_cache with
              | _ :: t => { as_state with purge_content_hosting_cache := t }
              | [] => as_state

/-- Modelled from the spec: exponential backoff with initial delay 1 second
and cap 60 seconds. -/
def next_backoff_delay (d : Nat) : Nat :=
  if d = 0 then 1 else min (2 * d) 60

/-- Modelled from the spec: the M3 response event handler.  Success pops the
driving entry, resets the backoff and drives the next step; 4xx drops the
entry and drives the next step; 5xx leaves the entry at the head and
schedules a retry after the next backoff delay. -/
def m3_response_event_handle (env : M3ClientEnv) (e : m3_engine_state)
    (k : m3_response_kind) : m3_engine_state :=
  match k with
  | .success payload =>
      issue_next_action env { e with
        as_state := pop_driving_entry e.as_state payload
        backoff_delay := 0
        scheduled_retry := none }
  | .client_error =>
      issue_next_action env { e with as_state := drop_driving_entry e.as_state }
  | .server_error =>
      let d := next_backoff_delay e.backoff_delay
      { e with backoff_delay := d, scheduled_retry := some d }

/-- The completion of one M3 exchange: the client layer invokes
`client_notify_cb` with the transport status; only when the callback queues
an event does the (spec-modelled) response handler run. -/
def m3_exchange_complete (env : M3ClientEnv) (e : m3_engine_state)
    (status : Int) (response : Option m3_response_kind) : m3_engine_state :=
  let e1 := { e with inflight := e.inflight - 1 }
  match client_notify_cb status response with
  | none => e1
  | some k => m3_response_event_handle env e1 k

/-- Engine node used by the C2 counterexample: both current lists known, one
pending certificate upload, one request in flight, no backoff yet. -/
def e_c2 : m3_engine_state :=
  { as_state := { application_server := { canonicalHostname := "as.example"
                                          urlPathPrefixFormat := "/m4d/"
                                          m3Port := 7777 }
                  current_certificates := some []
                  current_content_hosting_configurations := some []
                  upload_certificates := ["ps1:c1"] }
    inflight := 1 }

/-- C2 counterexample: an M3 request that fails with a transport error
(status `-1`, no response) is NOT retried with exponential backoff —
`client_notify_cb` logs and returns without queueing an event, so no retry
timer is scheduled and the node state (queues, cached lists, backoff) is
completely unchanged, while the claim requires a retry with an initial
1-second backoff. -/
theorem claim_c2_counterexample :
    (m3_exchange_complete env_w e_c2 (-1) none).scheduled_retry = none
    ∧ (m3_exchange_complete env_w e_c2 (-1) none).as_state = e_c2.as_state
    ∧ (m3_exchange_complete env_w e_c2 (-1) none).backoff_delay = 0
    ∧ (m3_exchange_complete env_w e_c2 (-1) none).inflight = 0 :=
  ⟨rfl, rfl, rfl, rfl⟩

/-- C2 as amended: received responses behave as the claim says — success
pops the driving entry, updates the cached list, resets the backoff and
drives the next step; 4xx drops the entry; 5xx leaves the entry at the head
and backs off exponentially (initial 1 s, cap 60 s) — but a transport error
is merely logged: no event is queued, so the entry stays at the head and no
retry or backoff is scheduled. -/
theorem claim_c2_amended (env : M3ClientEnv) (e : m3_engine_state) (status : Int)
    (response : Option m3_response_kind) (h : status ≠ OGS_OK) :
    m3_exchange_complete env e status response = { e with inflight := e.inflight - 1 }
  ∧ (∀ payload, m3_exchange_complete env e OGS_OK (some (.success payload)) =
      issue_next_action env { e with
        as_state := pop_driving_entry e.as_state payload
        inflight := e.inflight - 1
        backoff_delay := 0
        scheduled_retry := none })
  ∧ (m3_exchange_complete env e OGS_OK (some .client_error) =
      issue_next_action env { e with
        as_state := drop_driving_entry e.as_state
        inflight := e.inflight - 1 })
  ∧ (m3_exchange_complete env e OGS_OK (some .server_error) =
      { e with inflight := e.inflight - 1
               backoff_delay := next_backoff_delay e.backoff_delay
               scheduled_retry := some (next_backoff_delay e.backoff_delay) })
  ∧ (e.backoff_delay = 0 → next_backoff_delay e.backoff_delay = 1)
  ∧ next_backoff_delay e.backoff_delay ≤ 60 := by
  refine ⟨?_, ?_, ?_, ?_, ?_, ?_⟩
  · simp [m3_exchange_complete, client_notify_cb, h]
  · intro payload
    simp [m3_exchange_complete, client_notify_cb, m3_response_event_handle]
  · simp [m3_exchange_complete, client_notify_cb, m3_response_event_handle]
  · simp [m3_exchange_complete, client_notify_cb, m3_response_event_handle]
  · intro h0
    simp [next_backoff_delay, h0]
  · unfold next_backoff_delay
    split
    · omega
    · omega

/-- Witness for C2 as amended: at a concrete transport failure the node is
left untouched apart from the in-flight count, and the backoff law holds. -/
theorem claim_c2_witness :
    m3_exchange_complete env_w e_c2 (-1) none = { e_c2 with inflight := 0 }
    ∧ next_backoff_delay e_c2.backoff_delay ≤ 60 := by
  have h := claim_c2_amended env_w e_c2 (-1) none (by decide)
  exact ⟨h.1, h.2.2.2.2.2⟩

/-- Initial engine node used by the C4 failing trace: fresh AS-state node
(current lists unknown, queues empty), nothing in flight. -/
def e_c4_init : m3_engine_state :=
  { as_state := { application_server := { canonicalHostname := "as.example"
                                          urlPathPrefixFormat := "/m4d/"
                                          m3Port := 7777 } } }

/-- C4 failing trace: `msaf_application_server_state_set_on_post` issues a
GET (one request in flight) and, before any reply event is processed,
`msaf_application_server_state_update` drives
`next_action_for_application_server` again and issues a second GET — two M3
requests are outstanding on the same AS-state node, violating the claimed
at-most-one invariant. -/
theorem claim_c4_two_inflight_trace :
    (engine_update env_w ps_w
      (engine_set_on_post env_w "as.example" ps_w e_c4_init)).inflight = 2
    ∧ ¬ (engine_update env_w ps_w
      (engine_set_on_post env_w "as.example" ps_w e_c4_init)).inflight ≤ 1 := by
  constructor
  · rfl
  · decide

/-! ## Certificate and CHC upload steps -/

/-- Merging two adjacent string literals inside a chain of appends. -/
theorem string_append_merge (a b c x : String) (h : a ++ b = c) :
    a ++ (b ++ x) = c ++ x := by
  rw [← String.append_assoc, h]

/-- AS-state node used by the C5 counterexample: the certificate list is
known and a certificate upload is queued, but the CHC list is still
unknown. -/
def as_c5 : msaf_application_server_state_node :=
  { application_server := { canonicalHostname := "as.example"
                            urlPathPrefixFormat := "/m4d/"
                            m3Port := 7777 }
    current_certificates := some ["other"]
    upload_certificates := ["ps1:c1"] }

/-- C5 counterexample: with `current_certificates` known and
`upload_certificates` non-empty but `current_content_hosting_configurations`
still unknown, the reconciliation step does not upload the head certificate
at all — it issues the GET for the CHC list (method GET, no body, no
Content-Type), not a PUT or POST to the certificates path. -/
theorem claim_c5_counterexample :
    as_c5.current_certificates = some ["other"]
    ∧ as_c5.upload_certificates = ["ps1:c1"]
    ∧ next_action_for_application_server env_w as_c5 =
        some { method := "GET"
               uri := "http://as.example:7777/3gpp-m3/v1/content-hosting-configurations"
               content_type := none
               content := none }
    ∧ "GET" ≠ "PUT" ∧ "GET" ≠ "POST" := by
  refine ⟨rfl, rfl, ?_, by decide, by decide⟩
  rfl

/-- C5 as amended: when `current_certificates` AND
`current_content_hosting_configurations` are both known and
`upload_certificates` is non-empty, the step takes the head id, uses PUT
when the id occurs in `current_certificates` and POST otherwise, sends the
bytes read from the certificate file derived from the id with Content-Type
`application/x-pem-file` to `/3gpp-m3/v1/certificates/<psId>:<certId>`; the
analogous choice holds for the head of
`upload_content_hosting_configurations` (when the certificate queue is
empty) against `current_content_hosting_configurations`, with the rewritten
CHC JSON as body. -/
theorem claim_c5_amended (env : M3ClientEnv)
    (as_state : msaf_application_server_state_node) (cc hc : List String)
    (h1 : as_state.current_certificates = some cc)
    (h2 : as_state.current_content_hosting_configurations = some hc) :
    (∀ h t ps_id cert_id, as_state.upload_certificates = h :: t →
      strtok_colon h = (ps_id, cert_id) →
      next_action_for_application_server env as_state =
        some { method := if cc.contains h then "PUT" else "POST"
               uri := "http://" ++ as_state.application_server.canonicalHostname
                   ++ ":" ++ toString as_state.application_server.m3Port
                   ++ "/3gpp-m3/v1/certificates/" ++ ps_id ++ ":" ++ cert_id
               content_type := some "application/x-pem-file"
               content := env.read_file
                 (env.msaf_get_certificate_filename ps_id cert_id) })
  ∧ (∀ g gt, as_state.upload_certificates = [] →
      as_state.upload_content_hosting_configurations = g :: gt →
      next_action_for_application_server env as_state =
        some { method := if hc.contains g then "PUT" else "POST"
               uri := "http://" ++ as_state.application_server.canonicalHostname
                   ++ ":" ++ toString as_state.application_server.m3Port
                   ++ "/3gpp-m3/v1/content-hosting-configurations/" ++ g
               content_type := some "application/json"
               content :=
                 env.content_hosting_configuration_with_af_unique_cert_id_json g }) := by
  constructor
  · intro h t ps_id cert_id h3 h4
    have e1 : ("/3gpp-m3/v1/" : String) ++ ("certificates/" ++ (ps_id ++ (":" ++ cert_id)))
        = "/3gpp-m3/v1/certificates/" ++ (ps_id ++ (":" ++ cert_id)) :=
      string_append_merge _ _ _ _ rfl
    simp only [next_action_for_application_server, h1, h2, h3, h4,
      m3_client_as_state_requests]
    simp [String.append_assoc, e1]
  · intro g gt h3 h4
    have e2 : ("/3gpp-m3/v1/" : String) ++ ("content-hosting-configurations/" ++ g)
        = "/3gpp-m3/v1/content-hosting-configurations/" ++ g :=
      string_append_merge _ _ _ _ rfl
    simp only [next_action_for_application_server, h1, h2, h3, h4,
      m3_client_as_state_requests]
    simp [String.append_assoc, e2]

/-- Witness for C5 as amended: a concrete upload of `ps1:c1` against a
current list that contains it is a PUT carrying the file bytes. -/
theorem claim_c5_witness :
    next_action_for_application_server env_w as_w1 =
      some { method := if (["ps1:c1"] : List String).contains "ps1:c1" then "PUT" else "POST"
             uri := "http://" ++ as_w1.application_server.canonicalHostname
                 ++ ":" ++ toString as_w1.application_server.m3Port
                 ++ "/3gpp-m3/v1/certificates/" ++ "ps1" ++ ":" ++ "c1"
             content_type := some "application/x-pem-file"
             content := env_w.read_file
               (env_w.msaf_get_certificate_filename "ps1" "c1") } :=
  (claim_c5_amended env_w as_w1 ["ps1:c1"] [] rfl rfl).1 "ps1:c1" [] "ps1" "c1" rfl rfl

/-- C9: when the head certificate file cannot be read (`read_file` returns
NULL), the step logs an error but still issues the upload request — a PUT or
POST to the certificates path with Content-Type `application/x-pem-file` and
no message body; the queue entry is not dropped (the function never pops
queues) and the step is not aborted. -/
theorem claim_c9_unreadable_certificate (env : M3ClientEnv)
    (as_state : msaf_application_server_state_node) (cc hc : List String)
    (h ps_id cert_id : String) (w : List String)
    (h1 : as_state.current_certificates = some cc)
    (h2 : as_state.current_content_hosting_configurations = some hc)
    (h3 : as_state.upload_certificates = h :: w)
    (h4 : strtok_colon h = (ps_id, cert_id))
    (h5 : env.read_file (env.msaf_get_certificate_filename ps_id cert_id) = none) :
    ∃ r, next_action_for_application_server env as_state = some r
      ∧ r.content = none
      ∧ r.content_type = some "application/x-pem-file"
      ∧ (r.method = "PUT" ∨ r.method = "POST")
      ∧ r.uri = "http://" ++ as_state.application_server.canonicalHostname
          ++ ":" ++ toString as_state.application_server.m3Port
          ++ "/3gpp-m3/v1/certificates/" ++ ps_id ++ ":" ++ cert_id := by
  refine ⟨{ method := if cc.contains h then "PUT" else "POST"
            uri := "http://" ++ as_state.application_server.canonicalHostname
                ++ ":" ++ toString as_state.application_server.m3Port
                ++ "/3gpp-m3/v1/certificates/" ++ ps_id ++ ":" ++ cert_id
            content_type := some "application/x-pem-file"
            content := none }, ?_, rfl, rfl, ?_, rfl⟩
  · have e1 : ("/3gpp-m3/v1/" : String) ++ ("certificates/" ++ (ps_id ++ (":" ++ cert_id)))
        = "/3gpp-m3/v1/certificates/" ++ (ps_id ++ (":" ++ cert_id)) :=
      string_append_merge _ _ _ _ rfl
    simp only [next_action_for_application_server, h1, h2, h3, h4,
      m3_client_as_state_requests, h5]
    simp [String.append_assoc, e1]
  · by_cases hf : cc.contains h = true
    · exact Or.inl (if_pos hf)
    · exact Or.inr (if_neg hf)

/-- Environment whose certificate files are all unreadable. -/
def env_noread : M3ClientEnv :=
  { read_file := fun _ => none
    msaf_get_certificate_filename := fun a b => "certs/" ++ a ++ "/" ++ b
    content_hosting_configuration_with_af_unique_cert_id_json := fun _ => some "chcjson" }

/-- Witness for C9: with an unreadable certificate file the concrete node
still produces a bodiless PUT to the certificates path. -/
theorem claim_c9_witness :
    ∃ r, next_action_for_application_server env_noread as_w1 = some r
      ∧ r.content = none
      ∧ r.content_type = some "application/x-pem-file"
      ∧ (r.method = "PUT" ∨ r.method = "POST")
      ∧ r.uri = "http://" ++ as_w1.application_server.canonicalHostname
          ++ ":" ++ toString as_w1.application_server.m3Port
          ++ "/3gpp-m3/v1/certificates/" ++ "ps1" ++ ":" ++ "c1" :=
  claim_c9_unreadable_certificate env_noread as_w1 ["ps1:c1"] [] "ps1:c1" "ps1" "c1" []
    rfl rfl rfl rfl rfl

/-! ## HTTP response construction: server.c -/

/-- Header list operations modelling `ogs_sbi_header_set` (replace the value
when the name exists, otherwise append) and header lookup. -/
def header_set : List (String × String) → String → String → List (String × String)
  | [], k, v => [(k, v)]
  | p :: t, k, v => if p.1 = k then (k, v) :: t else p :: header_set t k v

/-- Looks a header up by name. -/
def header_get : List (String × String) → String → Option String
  | [], _ => none
  | p :: t, k => if p.1 = k then some p.2 else header_get t k

theorem header_get_header_set_self (hs : List (String × String)) (k v : String) :
    header_get (header_set hs k v) k = some v := by
  induction hs with
  | nil => simp [header_set, header_get]
  | cons p t ih =>
    by_cases h : p.1 = k
    · simp [header_set, h, header_get]
    · simp [header_set, h, header_get, ih]

theorem header_get_header_set_other (hs : List (String × String)) (k v q : String)
    (hq : q ≠ k) : header_get (header_set hs k v) q = header_get hs q := by
  induction hs with
  | nil => simp [header_set, header_get, Ne.symm hq]
  | cons p t ih =>
    by_cases h : p.1 = k
    · simp [header_set, h, header_get, Ne.symm hq, h.symm ▸ Ne.symm hq]
    · by_cases h2 : p.1 = q
      · simp [header_set, h, header_get, h2, hq]
      · simp [header_set, h, header_get, h2, hq, ih]

/-- Embeds the slice of `ogs_sbi_response_t` that server.c fills in. -/
structure ogs_sbi_response where
  status : Nat := 0
  headers : List (String × String) := []
  content : Option String := none
deriving DecidableEq

/-- Embeds `OpenAPI_problem_details_t` as filled by `nf_server_send_error`
(the RFC 7807 problem body).  The C field `instance` is rendered as
`instance_` because `instance` is reserved in Lean.  `invalid_params`
entries are kept opaque. -/
structure OpenAPI_problem_details where
  type : Option String := none
  instance_ : Option String := none
  is_status : Bool := false
  status : Nat := 0
  title : Option String := none
  detail : Option String := none
  invalid_params : Option (List String) := none
deriving DecidableEq

/-- Embeds the slice of `ogs_sbi_message_t` used by server.c: the request
routing header (`h.service.name`, `h.api.version`, `h.resource.component`)
and the response-side fields used by `nf_build_response`. -/
structure ogs_sbi_message where
  service_name : String := ""
  api_version : String := ""
  components : List String := []
  http_content_type : Option String := none
  http_location : Option String := none
  http_cache_control : Option String := none
  ProblemDetails : Option OpenAPI_problem_details := none

/-- External helpers of server.c whose bodies are outside the provided
sources: `get_time` formats a Last-Modified timestamp (utilities.c) and
`problem_json` models `OpenAPI_problem_details_convertToJSON` followed by
`cJSON_Print`, together with the compile-time constants `server_name`
(`msaf_self()->server_name`), `FIVE_API_RELEASE`, `MSAF_NAME`,
`MSAF_VERSION` and the six generated OpenAPI info strings (version.h and the
generated `*-info.h` headers). -/
structure ServerEnv where
  server_name : String
  five_api_release : String
  msaf_name : String
  msaf_version : String
  provisioning_session_info_title : String
  provisioning_session_info_version : String
  content_hosting_configuration_info_title : String
  content_hosting_configuration_info_version : String
  service_access_information_info_title : String
  service_access_information_info_version : String
  get_time : Nat → String
  problem_json : OpenAPI_problem_details → String

/-- The Server header value built when no recognised interface is given:
`5GMSdAF-<serverName>/<apiRelease> <name>/<version>` (no info block). -/
def server_header_plain (env : ServerEnv) : String :=
  "5GMSdAF-" ++ env.server_name ++ "/" ++ env.five_api_release ++ " "
    ++ env.msaf_name ++ "/" ++ env.msaf_version

/-- The Server header value built for a recognised interface:
`5GMSdAF-<serverName>/<apiRelease> (info.title=<t>; info.version=<v>)
<name>/<version>`. -/
def server_header_with (env : ServerEnv) (t v : String) : String :=
  "5GMSdAF-" ++ env.server_name ++ "/" ++ env.five_api_release
    ++ " (info.title=" ++ t ++ "; info.version=" ++ v ++ ") "
    ++ env.msaf_name ++ "/" ++ env.msaf_version

/-- Embeds `nf_server_new_response`: sets the optional Content-Type,
Location, Last-Modified (when the time is non-zero), ETag and Cache-Control
(`max-age=<n>` when non-zero) headers, then always sets the Server header,
choosing the API info block by the `interface` argument. -/
def nf_server_new_response (env : ServerEnv) (location : Option String)
    (content_type : Option String) (last_modified : Nat) (etag : Option String)
    (cache_control : Nat) (interface : Option String) : ogs_sbi_response :=
  let hs : List (String × String) := []
  let hs := match content_type with
    | some ct => header_set hs "Content-Type" ct
    | none => hs
  let hs := match location with
    | some l => header_set hs "Location" l
    | none => hs
  let hs := if last_modified ≠ 0 then
      header_set hs "Last-Modified" (env.get_time last_modified) else hs
  let hs := match etag with
    | some e => header_set hs "ETag" e
    | none => hs
  let hs := if cache_control ≠ 0 then
      header_set hs "Cache-Control" ("max-age=" ++ toString cache_control) else hs
  let server := match interface with
    | none => server_header_plain env
    | some s =>
      if s = "m1 provisioningSession" then
        server_header_with env env.provisioning_session_info_title
          env.provisioning_session_info_version
      else if s = "m1 contentHostingConfiguration" then
        server_header_with env env.content_hosting_configuration_info_title
          env.content_hosting_configuration_info_version
      else if s = "m5" then
        server_header_with env env.service_access_information_info_title
          env.service_access_information_info_version
      else server_header_plain env
  { status := 0, headers := header_set hs "Server" server, content := none }

/-- Embeds `nf_build_json`: a JSON body exists exactly when the message
carries `ProblemDetails`, in which case it is its serialisation. -/
def nf_build_json (env : ServerEnv) (message : ogs_sbi_message) : Option String :=
  message.ProblemDetails.map env.problem_json

/-- Embeds `nf_build_content`: when `nf_build_json` produced content, store
it and set the Content-Type header to the message content type when one is
set and `application/json` otherwise. -/
def nf_build_content (env : ServerEnv) (resp : ogs_sbi_response)
    (message : ogs_sbi_message) : ogs_sbi_response :=
  match nf_build_json env message with
  | some c =>
    { resp with
      content := some c
      headers := header_set resp.headers "Content-Type"
        (message.http_content_type.getD "application/json") }
  | none => resp

/-- Embeds `nf_build_response`: a fresh response from
`nf_server_new_response` with all-null arguments, the given status, content
built only when the status is not 204 No Content, then the optional Location
and Cache-Control headers from the message. -/
def nf_build_response (env : ServerEnv) (message : ogs_sbi_message)
    (status : Nat) : ogs_sbi_response :=
  let resp := nf_server_new_response env none none 0 none 0 none
  let resp := { resp with status := status }
  let resp := if status = 204 then resp else nf_build_content env resp message
  let resp := match message.http_location with
    | some l => { resp with headers := header_set resp.headers "Location" l }
    | none => resp
  match message.http_cache_control with
  | some c => { resp with headers := header_set resp.headers "Cache-Control" c }
  | none => resp

/-- Embeds `nf_server_send_problem`: wraps the problem in a message with
content type `application/problem+json` and builds the response with the
problem status. -/
def nf_server_send_problem (env : ServerEnv)
    (problem : OpenAPI_problem_details) : ogs_sbi_response :=
  nf_build_response env
    { http_content_type := some "application/problem+json"
      ProblemDetails := some problem }
    problem.status

/-- Models the result of `OpenAPI_problem_details_parseFromJSON` on the
`problem_detail` cJSON argument of `nf_server_send_error`: the decoded
optional `invalidParams` member (absent members parse to NULL). -/
structure parsed_problem_details where
  invalid_params : Option (List String) := none
deriving DecidableEq

/-- Embeds the `instance` string built by `nf_server_send_error`:
`/component[0]` followed by `/component[i]` for `i = 1 .. n`. -/
def problem_instance_path (components : List String) (n : Nat) : String :=
  (List.range n).foldl (fun acc i => acc ++ "/" ++ (components.getD (i + 1) ""))
    ("/" ++ components.getD 0 "")

/-- Embeds the `OpenAPI_problem_details_t` record filled in by
`nf_server_send_error` before it is handed to `nf_server_send_problem`. -/
def nf_server_send_error_problem (status : Nat) (number_of_components : Nat)
    (message : Option ogs_sbi_message) (title detail : Option String)
    (problem_detail : Option parsed_problem_details) : OpenAPI_problem_details :=
  { type := message.map (fun m => "/" ++ m.service_name ++ "/" ++ m.api_version)
    instance_ := message.map (fun m =>
      problem_instance_path m.components number_of_components)
    is_status := status ≠ 0
    status := status
    title := title
    detail := detail
    invalid_params := match problem_detail with
      | some p => p.invalid_params
      | none => none }

/-- Embeds `nf_server_send_error`: build the problem record and send it via
`nf_server_send_problem`. -/
def nf_server_send_error (env : ServerEnv) (status : Nat)
    (number_of_components : Nat) (message : Option ogs_sbi_message)
    (title detail : Option String)
    (problem_detail : Option parsed_problem_details) : ogs_sbi_response :=
  nf_server_send_problem env
    (nf_server_send_error_problem status number_of_components message title detail
      problem_detail)

/-- Concrete server environment used by counterexamples and witnesses. -/
def env_s : ServerEnv :=
  { server_name := "srv"
    five_api_release := "1.0"
    msaf_name := "name"
    msaf_version := "0.1"
    provisioning_session_info_title := "M1PS"
    provisioning_session_info_version := "v2"
    content_hosting_configuration_info_title := "M1CHC"
    content_hosting_configuration_info_version := "v2"
    service_access_information_info_title := "M5SAI"
    service_access_information_info_version := "v2"
    get_time := fun _ => "now"
    problem_json := fun _ => "problemjson" }

/-- C7 counterexample: a response built with a NULL `interface` argument —
exactly what `nf_build_response` always passes — carries a Server header
without any `(info.title=...; info.version=...)` block, so it does not have
the form the claim requires of every response. -/
theorem claim_c7_counterexample :
    header_get (nf_server_new_response env_s none none 0 none 0 none).headers "Server"
      = some "5GMSdAF-srv/1.0 name/0.1"
    ∧ ¬ ∃ t v, header_get (nf_server_new_response env_s none none 0 none 0 none).headers
        "Server"
        = some ("5GMSdAF-srv/1.0 (info.title=" ++ (t ++ ("; info.version="
            ++ (v ++ ") name/0.1")))) := by
  constructor
  · rfl
  · rintro ⟨t, v, h⟩
    have h0 : header_get (nf_server_new_response env_s none none 0 none 0 none).headers
        "Server" = some "5GMSdAF-srv/1.0 name/0.1" := rfl
    rw [h0] at h
    have h1 : ("5GMSdAF-srv/1.0 name/0.1" : String)
        = "5GMSdAF-srv/1.0 (info.title=" ++ (t ++ ("; info.version="
            ++ (v ++ ") name/0.1"))) := Option.some.inj h
    have h2 := congrArg String.length h1
    rw [String.length_append, String.length_append, String.length_append,
      String.length_append] at h2
    have l1 : ("5GMSdAF-srv/1.0 name/0.1" : String).length = 24 := rfl
    have l2 : ("5GMSdAF-srv/1.0 (info.title=" : String).length = 28 := rfl
    have l3 : ("; info.version=" : String).length = 15 := rfl
    have l4 : (") name/0.1" : String).length = 10 := rfl
    rw [l1, l2, l3, l4] at h2
    omega

/-- C7 as amended: every response built by `nf_server_new_response` carries
a Server header `5GMSdAF-<serverName>/<apiRelease> ... <name>/<version>`; the
`(info.title=...; info.version=...)` block is present exactly for the three
recognised interface values (`m1 provisioningSession`,
`m1 contentHostingConfiguration`, `m5`), chosen by that value, and is
omitted when the interface argument is NULL or unrecognised. -/
theorem claim_c7_amended (env : ServerEnv) (location content_type : Option String)
    (last_modified : Nat) (etag : Option String) (cache_control : Nat) :
    header_get (nf_server_new_response env location content_type last_modified etag
        cache_control (some "m1 provisioningSession")).headers "Server"
      = some (server_header_with env env.provisioning_session_info_title
          env.provisioning_session_info_version)
  ∧ header_get (nf_server_new_response env location content_type last_modified etag
        cache_control (some "m1 contentHostingConfiguration")).headers "Server"
      = some (server_header_with env env.content_hosting_configuration_info_title
          env.content_hosting_configuration_info_version)
  ∧ header_get (nf_server_new_response env location content_type last_modified etag
        cache_control (some "m5")).headers "Server"
      = some (server_header_with env env.service_access_information_info_title
          env.service_access_information_info_version)
  ∧ header_get (nf_server_new_response env location content_type last_modified etag
        cache_control none).headers "Server" = some (server_header_plain env)
  ∧ (∀ s, s ≠ "m1 provisioningSession" → s ≠ "m1 contentHostingConfiguration" →
      s ≠ "m5" →
      header_get (nf_server_new_response env location content_type last_modified etag
        cache_control (some s)).headers "Server" = some (server_header_plain env)) := by
  refine ⟨?_, ?_, ?_, ?_, ?_⟩
  · simp [nf_server_new_response, header_get_header_set_self]
  · simp [nf_server_new_response, header_get_header_set_self]
  · simp [nf_server_new_response, header_get_header_set_self]
  · simp [nf_server_new_response, header_get_header_set_self]
  · intro s h1 h2 h3
    simp [nf_server_new_response, h1, h2, h3, header_get_header_set_self]

/-- Witness for C7 as amended: a concrete unrecognised interface value gets
the plain Server header. -/
theorem claim_c7_witness :
    header_get (nf_server_new_response env_s none none 0 none 0
        (some "m3")).headers "Server" = some (server_header_plain env_s) :=
  (claim_c7_amended env_s none none 0 none 0).2.2.2.2 "m3"
    (by decide) (by decide) (by decide)

/-- Request message used by the C6 counterexample and witness. -/
def m_c6 : ogs_sbi_message :=
  { service_name := "3gpp-m1"
    api_version := "v2"
    components := ["provisioning-sessions", "123"] }

/-- C6 counterexample: a problem-detail JSON argument IS supplied (parsed to
a record whose `invalidParams` member is absent), yet the problem body built
by `nf_server_send_error` carries no `invalid_params` — so `invalid_params`
is not present exactly when the argument is supplied. -/
theorem claim_c6_counterexample :
    (some ({ invalid_params := none } : parsed_problem_details)).isSome = true
    ∧ (nf_server_send_error_problem 404 1 (some m_c6) (some "Not Found")
        (some "no such session")
        (some ({ invalid_params := none } : parsed_problem_details))).invalid_params
      = none :=
  ⟨rfl, rfl⟩

/-- C6 as amended: every error response produced by `nf_server_send_error`
(for an error status and a request message) carries Content-Type
`application/problem+json` and a problem body whose `type` is
`/<serviceName>/<apiVersion>`, whose `instance` concatenates the matched
resource components up to `number_of_components`, whose status, title and
detail are the supplied values, and whose `invalid_params` is present
exactly when a problem-detail JSON argument whose `invalidParams` member is
present is supplied. -/
theorem claim_c6_amended (env : ServerEnv) (status number_of_components : Nat)
    (m : ogs_sbi_message) (title detail : Option String)
    (problem_detail : Option parsed_problem_details)
    (hstatus : 400 ≤ status) :
    (nf_server_send_error_problem status number_of_components (some m) title detail
        problem_detail).type = some ("/" ++ m.service_name ++ "/" ++ m.api_version)
  ∧ (nf_server_send_error_problem status number_of_components (some m) title detail
        problem_detail).instance_
      = some (problem_instance_path m.components number_of_components)
  ∧ (nf_server_send_error_problem status number_of_components (some m) title detail
        problem_detail).is_status = true
  ∧ (nf_server_send_error_problem status number_of_components (some m) title detail
        problem_detail).status = status
  ∧ (nf_server_send_error_problem status number_of_components (some m) title detail
        problem_detail).title = title
  ∧ (nf_server_send_error_problem status number_of_components (some m) title detail
        problem_detail).detail = detail
  ∧ (nf_server_send_error_problem status number_of_components (some m) title detail
        problem_detail).invalid_params
      = (match problem_detail with
          | some p => p.invalid_params
          | none => none)
  ∧ header_get (nf_server_send_error env status number_of_components (some m) title
        detail problem_detail).headers "Content-Type"
      = some "application/problem+json"
  ∧ (nf_server_send_error env status number_of_components (some m) title detail
        problem_detail).content
      = some (env.problem_json (nf_server_send_error_problem status
          number_of_components (some m) title detail problem_detail))
  ∧ (nf_server_send_error env status number_of_components (some m) title detail
        problem_detail).status = status := by
  have h204 : ¬ (status = 204) := by omega
  have h0 : ¬ (status = 0) := by omega
  refine ⟨rfl, rfl, ?_, rfl, rfl, rfl, rfl, ?_, ?_, ?_⟩
  · simp [nf_server_send_error_problem, h0]
  · simp [nf_server_send_error, nf_server_send_problem, nf_build_response,
      nf_build_content, nf_build_json, nf_server_new_response,
      nf_server_send_error_problem, h204, header_get, header_set]
  · simp [nf_server_send_error, nf_server_send_problem, nf_build_response,
      nf_build_content, nf_build_json, nf_server_new_response,
      nf_server_send_error_problem, h204]
  · simp [nf_server_send_error, nf_server_send_problem, nf_build_response,
      nf_build_content, nf_build_json, nf_server_new_response,
      nf_server_send_error_problem, h204]

/-- Witness for C6 as amended: a concrete 404 with a supplied
`invalidParams` list carries them, with the Content-Type, type, instance and
status the claim requires. -/
theorem claim_c6_witness :
    (nf_server_send_error_problem 404 1 (some m_c6) (some "Not Found")
        (some "no such session")
        (some { invalid_params := some ["badParam"] })).type
      = some ("/" ++ m_c6.service_name ++ "/" ++ m_c6.api_version)
    ∧ (nf_server_send_error_problem 404 1 (some m_c6) (some "Not Found")
        (some "no such session")
        (some { invalid_params := some ["badParam"] })).invalid_params
      = (match (some ({ invalid_params := some ["badParam"] } : parsed_problem_details))
          with
          | some p => p.invalid_params
          | none => none)
    ∧ header_get (nf_server_send_error env_s 404 1 (some m_c6) (some "Not Found")
        (some "no such session")
        (some { invalid_params := some ["badParam"] })).headers "Content-Type"
      = some "application/problem+json" := by
  have h := claim_c6_amended env_s 404 1 m_c6 (some "Not Found")
    (some "no such session") (some { invalid_params := some ["badParam"] })
    (by decide)
  exact ⟨h.1, h.2.2.2.2.2.2.1, h.2.2.2.2.2.2.2.1⟩

/-- C10: `nf_build_response` attaches a body only when the status is not
204 No Content, and whenever a body is built the Content-Type header is the
message content type when one is set and `application/json` otherwise. -/
theorem claim_c10_body_and_content_type (env : ServerEnv)
    (message : ogs_sbi_message) (status : Nat) :
    (nf_build_response env message 204).content = none
  ∧ (∀ body, (nf_build_response env message status).content = some body →
      header_get (nf_build_response env message status).headers "Content-Type"
        = some (message.http_content_type.getD "application/json")) := by
  constructor
  · rcases hl : message.http_location with _ | l <;>
      rcases hc : message.http_cache_control with _ | c <;>
      simp [nf_build_response, nf_server_new_response, hl, hc]
  · intro body hbody
    by_cases h204 : status = 204
    · exfalso
      rw [h204] at hbody
      rcases hl : message.http_location with _ | l <;>
        rcases hc : message.http_cache_control with _ | c <;>
        simp [nf_build_response, nf_server_new_response, hl, hc] at hbody
    · rcases hp : message.ProblemDetails with _ | p
      · exfalso
        rcases hl : message.http_location with _ | l <;>
          rcases hc : message.http_cache_control with _ | c <;>
          simp [nf_build_response, nf_server_new_response, nf_build_content,
            nf_build_json, h204, hp, hl, hc] at hbody
      · rcases hl : message.http_location with _ | l <;>
          rcases hc : message.http_cache_control with _ | c <;>
          simp [nf_build_response, nf_server_new_response, nf_build_content,
            nf_build_json, h204, hp, hl, hc, header_get, header_set,
            header_get_header_set_other, header_get_header_set_self]

/-- Witness for C10: a concrete problem-bearing message without an explicit
content type gets body and `application/json`. -/
theorem claim_c10_witness :
    header_get (nf_build_response env_s { ProblemDetails := some {} } 200).headers
        "Content-Type"
      = some (({ ProblemDetails := some {} } :
          ogs_sbi_message).http_content_type.getD "application/json") :=
  (claim_c10_body_and_content_type env_s { ProblemDetails := some {} } 200).2
    "problemjson" rfl

/-! ## HTTP server abstraction: lib/sbi server/stream refactor -/

/-- Which per-backend actions table a server points at:
`ogs_mhd_server_actions` (HTTP/1.1) or `ogs_nghttp2_server_actions`
(HTTP/2).  After the patch the tables no longer carry a `from_stream`
member. -/
inductive server_actions_table where
  | mhd
  | nghttp2
deriving DecidableEq

/-- Embeds `ogs_sbi_server_t` after the patch: alongside its other fields
(elided) it carries the `actions` pointer installed by its constructor. -/
structure ogs_sbi_server where
  id : Nat
  actions : server_actions_table
deriving DecidableEq

/-- Embeds `ogs_sbi_stream_common_t`: the common header prefix of every
per-backend stream object, carrying the back-reference to the owning
server. -/
structure ogs_sbi_stream_common where
  server : ogs_sbi_server
deriving DecidableEq

/-- Embeds the patched MHD `ogs_sbi_session_s` (the HTTP/1.1 stream handle):
its first member is the common header; the old separate `server` field is
gone. -/
structure mhd_sbi_session where
  common : ogs_sbi_stream_common
  request_id : Nat
deriving DecidableEq

/-- Embeds the nghttp2 `ogs_sbi_session_s` connection object, which still
holds its owning server. -/
structure nghttp2_sbi_session where
  server : ogs_sbi_server
deriving DecidableEq

/-- Embeds the patched nghttp2 `ogs_sbi_stream_s`: its first member is the
common header, next to the back-pointer to its session. -/
structure nghttp2_sbi_stream where
  common : ogs_sbi_stream_common
  session : nghttp2_sbi_session
  stream_id : Int
deriving DecidableEq

/-- A stream handle as the upper layers see it: either backend's object,
both beginning with `ogs_sbi_stream_common_t`. -/
inductive ogs_sbi_stream where
  | mhd (s : mhd_sbi_session)
  | nghttp2 (st : nghttp2_sbi_stream)
deriving DecidableEq

/-- Embeds the patched MHD `session_add`: the new session's
`common.server` is set to the creating server. -/
def mhd_session_add (server : ogs_sbi_server) (request_id : Nat) : mhd_sbi_session :=
  { common := { server := server }, request_id := request_id }

/-- Embeds the patched nghttp2 `stream_add`: the new stream's
`common.server` is copied from the session's server. -/
def nghttp2_stream_add (sbi_sess : nghttp2_sbi_session) (stream_id : Int) :
    nghttp2_sbi_stream :=
  { common := { server := sbi_sess.server }, session := sbi_sess
    stream_id := stream_id }

/-- Embeds the pre-patch MHD `ogs_sbi_session_s`, whose `server` field the
removed `server_from_stream` virtual read. -/
structure mhd_sbi_session_old where
  server : ogs_sbi_server
  request_id : Nat
deriving DecidableEq

/-- Embeds the pre-patch MHD `session_add`. -/
def mhd_session_add_old (server : ogs_sbi_server) (request_id : Nat) :
    mhd_sbi_session_old :=
  { server := server, request_id := request_id }

/-- Embeds the removed MHD `server_from_stream` virtual function. -/
def mhd_server_from_stream_removed (sbi_sess : mhd_sbi_session_old) : ogs_sbi_server :=
  sbi_sess.server

/-- Embeds the pre-patch nghttp2 `ogs_sbi_stream_s`, which reached the
server through its session. -/
structure nghttp2_sbi_stream_old where
  session : nghttp2_sbi_session
  stream_id : Int
deriving DecidableEq

/-- Embeds the pre-patch nghttp2 `stream_add`. -/
def nghttp2_stream_add_old (sbi_sess : nghttp2_sbi_session) (stream_id : Int) :
    nghttp2_sbi_stream_old :=
  { session := sbi_sess, stream_id := stream_id }

/-- Embeds the removed nghttp2 `server_from_stream` virtual function:
`stream->session->server`. -/
def nghttp2_server_from_stream_removed (stream : nghttp2_sbi_stream_old) :
    ogs_sbi_server :=
  stream.session.server

/-- Embeds the common prefix read of either backend's stream object
(`(ogs_sbi_stream_common_t*)stream` in C). -/
def stream_common : ogs_sbi_stream → ogs_sbi_stream_common
  | .mhd s => s.common
  | .nghttp2 st => st.common

/-- Embeds the patched `ogs_sbi_server_from_stream`: a plain field access
through the common stream header. -/
def ogs_sbi_server_from_stream (stream : ogs_sbi_stream) : ogs_sbi_server :=
  (stream_common stream).server

/-- Embeds the patched `ogs_sbi_server_add`: the constructed server uses the
nghttp2 (HTTP/2) actions table. -/
def ogs_sbi_server_add (id : Nat) : ogs_sbi_server :=
  { id := id, actions := .nghttp2 }

/-- Embeds the patched `ogs_sbih1_server_add`: the constructed server uses
the MHD (HTTP/1.1) actions table. -/
def ogs_sbih1_server_add (id : Nat) : ogs_sbi_server :=
  { id := id, actions := .mhd }

/-- The result of one backend's `send_response`: which actions table handled
the stream and the response it was given.  Stands for the per-backend
`server_send_response` implementations. -/
def backend_send_response (table : server_actions_table) (stream : ogs_sbi_stream)
    (response : Nat) : server_actions_table × ogs_sbi_stream × Nat :=
  (table, stream, response)

/-- Embeds the patched `ogs_sbi_server_send_response`: look the owning
server up through the stream's common header and dispatch through that
server's own actions table. -/
def ogs_sbi_server_send_response (stream : ogs_sbi_stream) (response : Nat) :
    server_actions_table × ogs_sbi_stream × Nat :=
  backend_send_response (ogs_sbi_server_from_stream stream).actions stream response

/-- C8: for every stream created by either backend, the common header
carries the owning server; `ogs_sbi_server_from_stream` returns it by a
field access and agrees with the removed per-backend `from_stream`
virtuals; `ogs_sbi_server_send_response` dispatches through the returned
server's own actions table, and the two constructors install the two
different tables, so endpoints bound to different backends coexist. -/
theorem claim_c8_from_stream_refinement (server : ogs_sbi_server) (request_id : Nat)
    (sbi_sess : nghttp2_sbi_session) (stream_id : Int) (i j : Nat) (response : Nat) :
    (mhd_session_add server request_id).common.server = server
  ∧ ogs_sbi_server_from_stream (.mhd (mhd_session_add server request_id)) = server
  ∧ ogs_sbi_server_from_stream (.mhd (mhd_session_add server request_id))
      = mhd_server_from_stream_removed (mhd_session_add_old server request_id)
  ∧ (nghttp2_stream_add sbi_sess stream_id).common.server = sbi_sess.server
  ∧ ogs_sbi_server_from_stream (.nghttp2 (nghttp2_stream_add sbi_sess stream_id))
      = sbi_sess.server
  ∧ ogs_sbi_server_from_stream (.nghttp2 (nghttp2_stream_add sbi_sess stream_id))
      = nghttp2_server_from_stream_removed (nghttp2_stream_add_old sbi_sess stream_id)
  ∧ (ogs_sbi_server_add i).actions = server_actions_table.nghttp2
  ∧ (ogs_sbih1_server_add j).actions = server_actions_table.mhd
  ∧ ogs_sbi_server_send_response (.mhd (mhd_session_add (ogs_sbih1_server_add j)
        request_id)) response
      = backend_send_response server_actions_table.mhd
          (.mhd (mhd_session_add (ogs_sbih1_server_add j) request_id)) response
  ∧ ogs_sbi_server_send_response
        (.nghttp2 (nghttp2_stream_add { server := ogs_sbi_server_add i } stream_id))
        response
      = backend_send_response server_actions_table.nghttp2
          (.nghttp2 (nghttp2_stream_add { server := ogs_sbi_server_add i } stream_id))
          response :=
  ⟨rfl, rfl, rfl, rfl, rfl, rfl, rfl, rfl, rfl, rfl⟩

end RtMsaf
